import Mathlib

/-!
# Verification of the Project-ANJEL process-supervision core

A shallow embedding of the device registry (`device_manager.py`), the
configuration store (`config_manager.py`) and the process orchestrator with
auto-reconnect (`process_manager.py`), together with theorems settling the
specification claims about them.

External effects (running `adb`, spawning `scrcpy`, thread scheduling) are
modelled as explicit parameters: the outcome of an external command is an
input to the embedded function, and a background loop is embedded as a
fuel-indexed recursive function that returns the listener events it emitted
in order.
-/

namespace ANJEL

/-! ## Device model (`device_manager.py`)

`DeviceInfo.__init__` stores `device_id`, `status`, `name` (defaulting to the
id) and derives `is_connected = (status == "device")`.  Python `__eq__` and
`__hash__` compare by `device_id` alone. -/

structure DeviceInfo where
  device_id : String
  status : String
  name : String
deriving Repr, DecidableEq

/-- `DeviceInfo(device_id, status)` with `name` defaulting to the id. -/
def DeviceInfo.make (device_id : String) (status : String := "device")
    (name : Option String := none) : DeviceInfo :=
  { device_id := device_id, status := status, name := name.getD device_id }

/-- `self.is_connected = status == "device"` (device_manager.py line 39). -/
def DeviceInfo.is_connected (d : DeviceInfo) : Bool :=
  d.status == "device"

/-- Python `DeviceInfo.__eq__`: equality is by `device_id` alone
(device_manager.py lines 44-47); `__hash__` hashes the id, consistently. -/
def DeviceInfo.pyEq (a b : DeviceInfo) : Bool :=
  a.device_id == b.device_id

/-- Outcome of `subprocess.run(['adb', 'devices'], ...)`: either the call
raised (`FileNotFoundError`, `subprocess.TimeoutExpired`, or any other
exception — all caught by the same handler) or it completed with a return
code and captured stdout. -/
inductive AdbRunResult where
  | raised
  | completed (returncode : Int) (stdout : String)
deriving Repr, DecidableEq

/-- `ADBManager.get_connected_devices` (device_manager.py lines 66-89):
on any exception return `[]`; on nonzero return code return `[]`; otherwise
strip the output, split into lines, skip the header line, and for each
remaining non-blank line containing a tab, split on tabs and build a
`DeviceInfo` from the first two (stripped) fields.  Totality of this Lean
function is the "does not raise" guarantee. -/
def get_connected_devices : AdbRunResult → List DeviceInfo
  | .raised => []
  | .completed returncode stdout =>
    if returncode ≠ 0 then []
    else
      ((stdout.trim.splitOn "\n").drop 1).filterMap fun line =>
        let parts := line.splitOn "\t"
        -- `if line.strip() and '\t' in line` then `if len(parts) >= 2`;
        -- a tab in the line is exactly `parts.length ≥ 2`
        if line.trim ≠ "" ∧ parts.length ≥ 2 then
          some (DeviceInfo.make (parts.headD "").trim ((parts.drop 1).headD "").trim)
        else
          none

/-- Events dispatched to `DeviceConnectionListener`s, in dispatch order. -/
inductive DeviceEvent where
  | devices_changed (device_ids : List String)
  | device_connected (device_id : String)
  | device_disconnected (device_id : String)
deriving Repr, DecidableEq

/-- `DeviceManager._notify_device_changes(old_devices, new_devices)`
(device_manager.py lines 215-245).  The Python sets (whose membership uses
`DeviceInfo.__eq__`, i.e. id equality) are embedded as lists with
membership by `DeviceInfo.pyEq`.  Emits, in order: one aggregate
`on_devices_changed` with the ids of the reachable devices of the new set
(only if some device connected or disconnected), then `on_device_connected`
for each newly present device whose `is_connected` holds, then
`on_device_disconnected` for each newly absent device. -/
def notify_device_changes (old_devices new_devices : List DeviceInfo) :
    List DeviceEvent :=
  let connected := new_devices.filter
    (fun d => !(old_devices.any (fun o => DeviceInfo.pyEq o d)))
  let disconnected := old_devices.filter
    (fun d => !(new_devices.any (fun o => DeviceInfo.pyEq o d)))
  let aggregate :=
    if ¬ connected.isEmpty ∨ ¬ disconnected.isEmpty then
      [DeviceEvent.devices_changed
        ((new_devices.filter DeviceInfo.is_connected).map DeviceInfo.device_id)]
    else []
  let connectEvents :=
    (connected.filter DeviceInfo.is_connected).map
      (fun d => DeviceEvent.device_connected d.device_id)
  let disconnectEvents :=
    disconnected.map (fun d => DeviceEvent.device_disconnected d.device_id)
  aggregate ++ connectEvents ++ disconnectEvents

/-- `DeviceManager.is_device_connected(device_id)` (device_manager.py lines
201-203): pure lookup against the current device list. -/
def is_device_connected (current_devices : List DeviceInfo)
    (device_id : String) : Bool :=
  current_devices.any (fun d => d.device_id == device_id && d.is_connected)

/-- State of a `DeviceManager`: the last-known device list and the
display-name cache. -/
structure DeviceManagerState where
  current_devices : List DeviceInfo
  device_name_cache : List (String × String)
deriving Repr, DecidableEq

/-- `DeviceManager.refresh_devices` (device_manager.py lines 157-180),
parameterised by the `adb devices` outcome and by the external name query
`ADBManager.get_device_name` (`nameOf`).  Returns the new manager state,
the dispatched events, and the returned device list. -/
def refresh_devices (st : DeviceManagerState) (adb : AdbRunResult)
    (nameOf : String → Option String) (notify_listeners : Bool := true) :
    DeviceManagerState × List DeviceEvent × List DeviceInfo :=
  let old_devices := st.current_devices
  let new_devices_raw := get_connected_devices adb
  -- enhance device info with names, updating the cache as in the source loop
  let step := fun (acc : List (String × String) × List DeviceInfo)
      (device : DeviceInfo) =>
    let cache := acc.1
    let cache' :=
      if (cache.lookup device.device_id).isNone then
        match nameOf device.device_id with
        | some name => (device.device_id, name) :: cache
        | none => cache
      else cache
    let device' :=
      match cache'.lookup device.device_id with
      | some name => { device with name := name }
      | none => device
    (cache', acc.2 ++ [device'])
  let enhanced := new_devices_raw.foldl step (st.device_name_cache, [])
  let new_devices := enhanced.2
  let events :=
    if notify_listeners then notify_device_changes old_devices new_devices
    else []
  ({ current_devices := new_devices, device_name_cache := enhanced.1 },
   events, new_devices)

/-! ## Configuration model (`config_manager.py`)

Python values reaching the validators and the config store are dynamically
typed; they are embedded as the sum `PyVal` (floats as exact rationals —
every comparison the code performs against 0, 1000 and the range bounds is
decided identically on `Rat`).  A dataclass instance is its attribute
dictionary, embedded as an association list, which is also exactly what
`AppConfig.to_dict` (`dataclasses.asdict`) produces. -/

inductive PyVal where
  | vstr (s : String)
  | vint (n : Int)
  | vbool (b : Bool)
  | vrat (q : Rat)
  | vlist (l : List String)
deriving Repr, DecidableEq

/-- Digit list to the natural number it denotes. -/
def digitsToNat (cs : List Char) : Nat :=
  cs.foldl (fun acc c => acc * 10 + (c.toNat - Char.toNat '0')) 0

/-- Python `float(s)` on a plain decimal literal: optional sign, digits,
optional fractional part (exponent/`inf`/`nan` forms are not modelled; no
claim exercises them). -/
def parseDecimal? (s : String) : Option Rat :=
  let cs := s.data
  let signed : Int × List Char :=
    match cs with
    | '-' :: rest => (-1, rest)
    | '+' :: rest => (1, rest)
    | _ => (1, cs)
  let sign := signed.1
  let body := signed.2
  let intPart := body.takeWhile Char.isDigit
  let rest := body.dropWhile Char.isDigit
  match rest with
  | [] =>
    if intPart.isEmpty then none
    else some ((sign : Rat) * (digitsToNat intPart : Rat))
  | '.' :: frac =>
    if frac.all Char.isDigit ∧ ¬ (intPart.isEmpty ∧ frac.isEmpty) then
      some ((sign : Rat) *
        ((digitsToNat intPart : Rat) +
          (digitsToNat frac : Rat) / (10 : Rat) ^ frac.length))
    else none
  | _ => none

/-- Python `int(s)`: optional sign and digits (whitespace already stripped
by the callers). -/
def parseInt? (s : String) : Option Int :=
  let cs := s.trim.data
  let signed : Int × List Char :=
    match cs with
    | '-' :: rest => (-1, rest)
    | '+' :: rest => (1, rest)
    | _ => (1, cs)
  if ¬ signed.2.isEmpty ∧ signed.2.all Char.isDigit then
    some (signed.1 * (digitsToNat signed.2 : Int))
  else none

/-- Python `int(x)` on a float: truncation toward zero. -/
def pyIntTrunc (q : Rat) : Int :=
  if 0 ≤ q then ⌊q⌋ else ⌈q⌉

/-- Python `str.rstrip('Mm')`: drop every trailing `M` or `m`. -/
def rstripMm (s : String) : String :=
  ⟨(s.data.reverse.dropWhile (fun c => c = 'M' ∨ c = 'm')).reverse⟩

/-- Rendering used in validator error messages (`str` in Python). -/
def PyVal.render : PyVal → String
  | .vstr s => s
  | .vint n => toString n
  | .vbool b => if b then "True" else "False"
  | .vrat q => toString q
  | .vlist l => toString l

/-- The range comparison of `RangeValidator.validate` after conversion
(config_manager.py lines 39-44). -/
def RangeValidator.checkRange (min_value max_value c : Rat) : Bool × String :=
  if c < min_value then (false, "Value must be at least " ++ toString min_value)
  else if c > max_value then (false, "Value must be at most " ++ toString max_value)
  else (true, "Valid")

/-- `RangeValidator` instance: bounds plus whether `value_type` is `int`
(`true`) or `float` (`false`). -/
structure RangeValidator where
  min_value : Rat
  max_value : Rat
  intType : Bool
deriving Repr, DecidableEq

/-- The `self.value_type(value)` conversion of `RangeValidator.validate`;
`none` is the `(ValueError, TypeError)` branch.  `int(bool)`/`float(bool)`
succeed in Python (`True == 1`); `int`/`float` of a list raise `TypeError`;
`int` of a non-integer string raises `ValueError`. -/
def RangeValidator.convert (rv : RangeValidator) : PyVal → Option Rat
  | .vstr s =>
    if rv.intType then (parseInt? s.trim).map (fun n => (n : Rat))
    else parseDecimal? s.trim
  | .vint n => some (n : Rat)
  | .vbool b => some (if b then 1 else 0)
  | .vrat q => if rv.intType then some ((pyIntTrunc q : Int) : Rat) else some q
  | .vlist _ => none

/-- `RangeValidator.validate` (config_manager.py lines 30-46). -/
def RangeValidator.validate (rv : RangeValidator) (value : PyVal) :
    Bool × String :=
  let typeErr : Bool × String :=
    (false, "Value must be a valid " ++ (if rv.intType then "int" else "float"))
  match value with
  | .vstr s =>
    if s.trim = "" then (false, "Value cannot be empty")
    else
      match rv.convert (.vstr s) with
      | some c => RangeValidator.checkRange rv.min_value rv.max_value c
      | none => typeErr
  | v =>
    match rv.convert v with
    | some c => RangeValidator.checkRange rv.min_value rv.max_value c
    | none => typeErr

/-- `ChoiceValidator.validate` (config_manager.py lines 55-58); membership
follows `DecidableEq PyVal` (Python's numeric cross-type equalities such as
`True == 1` are not modelled; no configured choice list mixes types). -/
def ChoiceValidator.validate (choices : List PyVal) (value : PyVal) :
    Bool × String :=
  if value ∈ choices then (true, "Valid")
  else
    (false, "Value must be one of: " ++
      String.intercalate ", " (choices.map PyVal.render))

/-- The comparisons of `BitrateValidator.validate` once a numeric value is
in hand (config_manager.py lines 75-80). -/
def BitrateValidator.checkRange (bitrate_value : Rat) : Bool × String :=
  if bitrate_value ≤ 0 then (false, "Bitrate must be greater than 0")
  else if bitrate_value > 1000 then (false, "Bitrate too high (max 1000 Mbps)")
  else (true, "Valid")

/-- `BitrateValidator.validate` (config_manager.py lines 64-82): strings are
stripped, a trailing `M`/`m` suffix removed, then converted with `float`;
other values go through `float` directly; conversion failure is the
`(ValueError, TypeError)` branch. -/
def BitrateValidator.validate (value : PyVal) : Bool × String :=
  match value with
  | .vstr s =>
    if s.trim = "" then (false, "Bitrate cannot be empty")
    else
      match parseDecimal? (rstripMm s.trim) with
      | some bitrate_value => BitrateValidator.checkRange bitrate_value
      | none => (false, "Bitrate must be a valid number")
  | .vint n => BitrateValidator.checkRange (n : Rat)
  | .vbool b => BitrateValidator.checkRange (if b then 1 else 0)
  | .vrat q => BitrateValidator.checkRange q
  | .vlist _ => (false, "Bitrate must be a valid number")

/-- `ConfigManager.validate_field` with the default validator table of
`_setup_default_validators` (config_manager.py lines 137-151, 253-257). -/
def validate_field (field_name : String) (value : PyVal) : Bool × String :=
  if field_name = "bitrate" then BitrateValidator.validate value
  else if field_name = "framerate" then
    RangeValidator.validate ⟨1, 240, true⟩ value
  else if field_name = "fullscreen_enabled" then
    ChoiceValidator.validate [.vbool true, .vbool false] value
  else if field_name = "audio_source" then
    ChoiceValidator.validate
      [.vstr "Audio Playback", .vstr "Microphone", .vstr "No audio"] value
  else if field_name = "auto_reconnect_enabled" then
    ChoiceValidator.validate [.vbool true, .vbool false] value
  else if field_name = "reconnect_max_attempts" then
    RangeValidator.validate ⟨0, 100, true⟩ value
  else if field_name = "reconnect_delay" then
    RangeValidator.validate ⟨1 / 10, 60, false⟩ value
  else if field_name = "window_width" then
    RangeValidator.validate ⟨300, 2000, true⟩ value
  else if field_name = "window_height" then
    RangeValidator.validate ⟨400, 1500, true⟩ value
  else if field_name = "theme" then
    ChoiceValidator.validate [.vstr "light", .vstr "dark"] value
  else if field_name = "device_refresh_interval" then
    RangeValidator.validate ⟨1 / 2, 30, false⟩ value
  else (true, "No validator defined")

/-- Python `setattr` on the attribute dictionary of the config object. -/
def setAttrD (config : List (String × PyVal)) (field_name : String)
    (value : PyVal) : List (String × PyVal) :=
  config.map (fun kv => if kv.1 = field_name then (kv.1, value) else kv)

/-- `ConfigManager.set` (config_manager.py lines 227-251) on the config
object's attribute dictionary: optional validation (invalid → `False`,
config untouched), `hasattr` check (unknown field → `False`), then
`setattr`.  Change-listener notification carries no config state and is
omitted. -/
def ConfigManager.set (config : List (String × PyVal)) (field_name : String)
    (value : PyVal) (validate : Bool := true) :
    List (String × PyVal) × Bool :=
  if validate ∧ (validate_field field_name value).1 = false then
    (config, false)
  else if (config.lookup field_name).isSome then
    (setAttrD config field_name value, true)
  else (config, false)

/-- `AppConfig` dataclass (config_manager.py lines 85-112) with its default
field values.  Python floats are embedded as `Rat`. -/
structure AppConfig where
  bitrate : String := "20"
  framerate : Int := 60
  fullscreen_enabled : Bool := false
  audio_source : String := "Audio Playback"
  auto_reconnect_enabled : Bool := false
  reconnect_max_attempts : Int := 0
  reconnect_delay : Rat := 3
  window_width : Int := 400
  window_height : Int := 600
  theme : String := "light"
  last_selected_device : String := ""
  device_refresh_interval : Rat := 3
  additional_scrcpy_args : List String := []
deriving Repr, DecidableEq

/-- The default-constructed `AppConfig()`. -/
def AppConfig.defaults : AppConfig := {}

/-- The dataclass field names (`cls.__dataclass_fields__`). -/
def AppConfig.known_fields : List String :=
  ["bitrate", "framerate", "fullscreen_enabled", "audio_source",
   "auto_reconnect_enabled", "reconnect_max_attempts", "reconnect_delay",
   "window_width", "window_height", "theme", "last_selected_device",
   "device_refresh_interval", "additional_scrcpy_args"]

/-- `AppConfig.to_dict` (`dataclasses.asdict`, config_manager.py lines
114-116). -/
def AppConfig.to_dict (c : AppConfig) : List (String × PyVal) :=
  [("bitrate", .vstr c.bitrate),
   ("framerate", .vint c.framerate),
   ("fullscreen_enabled", .vbool c.fullscreen_enabled),
   ("audio_source", .vstr c.audio_source),
   ("auto_reconnect_enabled", .vbool c.auto_reconnect_enabled),
   ("reconnect_max_attempts", .vint c.reconnect_max_attempts),
   ("reconnect_delay", .vrat c.reconnect_delay),
   ("window_width", .vint c.window_width),
   ("window_height", .vint c.window_height),
   ("theme", .vstr c.theme),
   ("last_selected_device", .vstr c.last_selected_device),
   ("device_refresh_interval", .vrat c.device_refresh_interval),
   ("additional_scrcpy_args", .vlist c.additional_scrcpy_args)]

/-- `AppConfig.from_dict` (config_manager.py lines 118-124): filter the
input down to known dataclass fields, then construct with the filtered
values, fields not supplied taking their dataclass defaults.  (In this
typed embedding a key bound to a value of the wrong shape also falls back
to the default; no claim and no dict produced by `to_dict` exercises that
case.) -/
def AppConfig.from_dict (data : List (String × PyVal)) : AppConfig :=
  let filtered := data.filter (fun kv => kv.1 ∈ AppConfig.known_fields)
  { bitrate :=
      match filtered.lookup "bitrate" with
      | some (.vstr s) => s
      | _ => "20"
  , framerate :=
      match filtered.lookup "framerate" with
      | some (.vint n) => n
      | _ => 60
  , fullscreen_enabled :=
      match filtered.lookup "fullscreen_enabled" with
      | some (.vbool b) => b
      | _ => false
  , audio_source :=
      match filtered.lookup "audio_source" with
      | some (.vstr s) => s
      | _ => "Audio Playback"
  , auto_reconnect_enabled :=
      match filtered.lookup "auto_reconnect_enabled" with
      | some (.vbool b) => b
      | _ => false
  , reconnect_max_attempts :=
      match filtered.lookup "reconnect_max_attempts" with
      | some (.vint n) => n
      | _ => 0
  , reconnect_delay :=
      match filtered.lookup "reconnect_delay" with
      | some (.vrat q) => q
      | _ => 3
  , window_width :=
      match filtered.lookup "window_width" with
      | some (.vint n) => n
      | _ => 400
  , window_height :=
      match filtered.lookup "window_height" with
      | some (.vint n) => n
      | _ => 600
  , theme :=
      match filtered.lookup "theme" with
      | some (.vstr s) => s
      | _ => "light"
  , last_selected_device :=
      match filtered.lookup "last_selected_device" with
      | some (.vstr s) => s
      | _ => ""
  , device_refresh_interval :=
      match filtered.lookup "device_refresh_interval" with
      | some (.vrat q) => q
      | _ => 3
  , additional_scrcpy_args :=
      match filtered.lookup "additional_scrcpy_args" with
      | some (.vlist l) => l
      | _ => [] }

/-! ## Process model (`process_manager.py`)

External process behaviour (what `terminate`/`kill`/`poll` will observe) is
an input to the embedded functions; background threads are embedded either
as fuel-indexed loops returning their emitted events (the reconnect loop)
or as scenario functions executing one loop body (the disconnect monitor).
-/

/-- `ScrcpyConfig` dataclass (process_manager.py lines 23-31). -/
structure ScrcpyConfig where
  device_id : String
  bitrate : String := "20M"
  framerate : Int := 60
  fullscreen : Bool := false
  audio_source : String := "playback"
  additional_args : List String := []
deriving Repr, DecidableEq

/-- `ScrcpyConfig.to_command_args` (process_manager.py lines 33-55). -/
def ScrcpyConfig.to_command_args (c : ScrcpyConfig) : List String :=
  let cmd := ["scrcpy", "-s", c.device_id, "-b", c.bitrate]
  let cmd := cmd ++ ["--max-fps", toString c.framerate]
  let cmd := if c.fullscreen then cmd ++ ["-f"] else cmd
  let cmd :=
    if c.audio_source = "playback" then cmd ++ ["--audio-source=playback"]
    else if c.audio_source = "mic-voice-communication" then
      cmd ++ ["--audio-source=mic-voice-communication"]
    else if c.audio_source = "none" then cmd ++ ["--no-audio"]
    else cmd
  cmd ++ c.additional_args

/-- `ProcessStatus` (process_manager.py lines 87-94). -/
inductive ProcessStatus where
  | stopped
  | starting
  | running
  | stopping
  | reconnecting
  | error
deriving Repr, DecidableEq

/-- How the underlying OS process behaves under `_cleanup_process`:
it may already have exited (`poll()` returns a code), exit on graceful
`terminate`, exit only after `kill`, survive even `kill` (both waits time
out), or some cleanup call may raise. -/
inductive ProcBehavior where
  | alreadyExited (code : Int)
  | exitsOnTerminate
  | exitsOnKill
  | survivesKill
  | raisesDuringCleanup
deriving Repr, DecidableEq

/-- State of a `ScrcpyProcess` handle: the tracked process reference (with
its behaviour) or `none`, and the handle status. -/
structure ScrcpyProcessState where
  process : Option ProcBehavior
  status : ProcessStatus
deriving Repr, DecidableEq

/-- `ScrcpyProcess._cleanup_process` (process_manager.py lines 204-231).
No tracked process: success.  Already exited: skip termination, clear the
reference, status `stopped`, success.  Exits on terminate or on kill:
likewise.  Survives kill: the inner `return False` fires — the reference is
NOT cleared and the status is left as it was.  An exception during cleanup
is caught: reference cleared, status `error`, failure. -/
def ScrcpyProcess.cleanup_process (st : ScrcpyProcessState) :
    ScrcpyProcessState × Bool :=
  match st.process with
  | none => (st, true)
  | some b =>
    match b with
    | .alreadyExited _ => ({ st with process := none, status := .stopped }, true)
    | .exitsOnTerminate => ({ st with process := none, status := .stopped }, true)
    | .exitsOnKill => ({ st with process := none, status := .stopped }, true)
    | .survivesKill => (st, false)
    | .raisesDuringCleanup =>
        ({ st with process := none, status := .error }, false)

/-- `ScrcpyProcess.stop` (process_manager.py lines 172-180): a handle whose
status is neither `running` nor `reconnecting` returns success untouched;
otherwise status becomes `stopping`, the monitor stop flag is set, and
`_cleanup_process` runs. -/
def ScrcpyProcess.stop (st : ScrcpyProcessState) : ScrcpyProcessState × Bool :=
  if st.status ≠ ProcessStatus.running ∧ st.status ≠ ProcessStatus.reconnecting then
    (st, true)
  else
    ScrcpyProcess.cleanup_process { st with status := .stopping }

/-- `ScrcpyProcess.get_exit_code` (process_manager.py lines 188-192):
`poll()` of the tracked process, `none` when no process is tracked or it is
still alive. -/
def ScrcpyProcess.get_exit_code (st : ScrcpyProcessState) : Option Int :=
  match st.process with
  | some (.alreadyExited code) => some code
  | _ => none

/-- Events delivered to `ProcessEventListener`s, in delivery order. -/
inductive ProcessEvent where
  | process_started
  | process_stopped (exit_code : Option Int)
  | process_error
  | reconnect_attempt (attempt : Nat)
  | reconnect_success
deriving Repr, DecidableEq

/-- State of an `AutoReconnectManager` (process_manager.py lines 237-245):
`reconnect_thread` records whether `_reconnect_thread` is non-`None`
(a reconnect loop is tracked).  `retry_delay` and the listener list are
time/fan-out, carried by the event traces instead. -/
structure AutoReconnectState where
  is_enabled : Bool
  attempt_count : Nat
  max_attempts : Nat
  reconnect_thread : Bool
deriving Repr, DecidableEq

/-- `AutoReconnectManager.start_reconnecting` (process_manager.py lines
257-269): a no-op unless enabled and no reconnect thread is tracked;
otherwise resets `attempt_count` to 0, clears the stop flag, and launches
the loop thread. -/
def AutoReconnectManager.start_reconnecting (st : AutoReconnectState) :
    AutoReconnectState :=
  if ¬ st.is_enabled ∨ st.reconnect_thread then st
  else { st with attempt_count := 0, reconnect_thread := true }

/-- `AutoReconnectManager.stop_reconnecting` (process_manager.py lines
271-277): sets the stop flag, joins and clears the tracked thread, and
resets `attempt_count` to 0. -/
def AutoReconnectManager.stop_reconnecting (st : AutoReconnectState) :
    AutoReconnectState :=
  { st with reconnect_thread := false, attempt_count := 0 }

/-- `AutoReconnectManager._reconnect_loop` (process_manager.py lines
279-320), with the stop flag never set by another thread.  `present n`
tells whether `device_checker` finds the device on attempt `n`, and
`restartOk n` the outcome of `restart_callback()` on attempt `n`.  `fuel`
bounds the number of iterations unfolded; the returned `Bool` is `true`
exactly when the loop exited by itself (`break` on max attempts or on
successful restart) within the fuel — on every such exit line 320 clears
`_reconnect_thread`.  Returns the final manager state and the events the
loop emitted, in order. -/
def reconnect_loop (present restartOk : Nat → Bool) (fuel : Nat)
    (st : AutoReconnectState) : AutoReconnectState × List ProcessEvent × Bool :=
  match fuel with
  | 0 => (st, [], false)
  | fuel + 1 =>
    if st.max_attempts > 0 ∧ st.attempt_count ≥ st.max_attempts then
      ({ st with reconnect_thread := false }, [], true)
    else
      let st1 := { st with attempt_count := st.attempt_count + 1 }
      let ev := ProcessEvent.reconnect_attempt st1.attempt_count
      if present st1.attempt_count then
        if restartOk st1.attempt_count then
          ({ st1 with attempt_count := 0, reconnect_thread := false },
           [ev, ProcessEvent.reconnect_success], true)
        else
          let rest := reconnect_loop present restartOk fuel st1
          (rest.1, ev :: rest.2.1, rest.2.2)
      else
        let rest := reconnect_loop present restartOk fuel st1
        (rest.1, ev :: rest.2.1, rest.2.2)

/-- State of a `ProcessManager` (process_manager.py lines 326-335). -/
structure PMState where
  current_process : Option ScrcpyProcessState
  current_config : Option ScrcpyConfig
  status : ProcessStatus
  auto : AutoReconnectState
deriving Repr, DecidableEq

/-- Outcome of `subprocess.Popen` inside `ScrcpyProcess.start` for a fresh
handle: the child spawns (with some later teardown behaviour) or `Popen`
raises. -/
inductive LaunchOutcome where
  | started (behaviour : ProcBehavior)
  | raised
deriving Repr, DecidableEq

/-- `ProcessManager.start_process` (process_manager.py lines 347-391),
parameterised by the advisory system-wide scan result
(`SystemProcessChecker.has_running_scrcpy`) and the spawn outcome.
Returns the new state, the emitted events, and `Except` capturing a raised
exception (`RuntimeError` on external conflict, or the re-raised spawn
error) versus the returned boolean.  A fresh `ScrcpyProcess` is in status
`stopped`, so its `start` never returns `False`; the corresponding dead
branch (lines 374-377) is therefore not reachable in this model. -/
def ProcessManager.start_process (pm : PMState) (config : ScrcpyConfig)
    (scan_busy : Bool) (launch : LaunchOutcome) :
    PMState × List ProcessEvent × Except Unit Bool :=
  if pm.status ≠ ProcessStatus.stopped then (pm, [], .ok false)
  else if scan_busy then (pm, [], .error ())
  else
    match launch with
    | .started b =>
      ({ pm with
          current_config := some config,
          current_process := some { process := some b, status := .running },
          status := .running },
       [ProcessEvent.process_started], .ok true)
    | .raised =>
      ({ pm with
          current_config := none,
          current_process := none,
          status := .error },
       [ProcessEvent.process_error], .error ())

/-- `ProcessManager.stop_process` (process_manager.py lines 393-414):
always cancels auto-reconnect first, then (if a process handle is held)
stops it, reads its exit code, notifies `on_process_stopped`, and clears
the handle; in every case clears the config, sets status `stopped`, and
returns the teardown result. -/
def ProcessManager.stop_process (pm : PMState) :
    PMState × List ProcessEvent × Bool :=
  let auto := AutoReconnectManager.stop_reconnecting pm.auto
  match pm.current_process with
  | some proc =>
    let stopped := ScrcpyProcess.stop proc
    let exit_code := ScrcpyProcess.get_exit_code stopped.1
    ({ pm with
        auto := auto,
        current_process := none,
        current_config := none,
        status := .stopped },
     [ProcessEvent.process_stopped exit_code], stopped.2)
  | none =>
    ({ pm with
        auto := auto,
        current_config := none,
        status := .stopped },
     [], true)

/-- The body of the `_start_disconnect_monitoring` monitor thread
(process_manager.py lines 437-453) at the moment it observes the child no
longer running, composed with the reconnect loop it launches, with the
device never reappearing (`device_checker` always `False`).  If
auto-reconnect is enabled and a config is set, status becomes
`reconnecting` and `start_reconnecting` is invoked; the launched loop then
runs to completion (or fuel exhaustion).  Otherwise status becomes
`stopped`.  Returns the final manager state, the events emitted, and
whether the launched loop terminated within the fuel. -/
def ProcessManager.disconnect_monitor_deviceAbsent (pm : PMState)
    (fuel : Nat) : PMState × List ProcessEvent × Bool :=
  if pm.auto.is_enabled ∧ pm.current_config.isSome then
    let pm1 := { pm with status := ProcessStatus.reconnecting }
    let launches := pm1.auto.is_enabled ∧ ¬ pm1.auto.reconnect_thread
    let auto1 := AutoReconnectManager.start_reconnecting pm1.auto
    if launches then
      let looped := reconnect_loop (fun _ => false) (fun _ => false) fuel auto1
      ({ pm1 with auto := looped.1 }, looped.2.1, looped.2.2)
    else
      ({ pm1 with auto := auto1 }, [], true)
  else
    ({ pm with status := ProcessStatus.stopped }, [], true)

/-! ## Theorems settling the specification claims -/

/-- C5: for a poll cycle with old device set `{A, B}` and new set `{A, C}`
(`C` reachable), exactly one aggregate devices-changed event, one connect
event (for `C`) and one disconnect event (for `B`) are dispatched, and the
aggregate event comes before the per-device events. -/
theorem poll_diff_events_for_swap :
    notify_device_changes
        [DeviceInfo.make "A", DeviceInfo.make "B"]
        [DeviceInfo.make "A", DeviceInfo.make "C"] =
      [DeviceEvent.devices_changed ["A", "C"],
       DeviceEvent.device_connected "C",
       DeviceEvent.device_disconnected "B"] := by
  rfl

/-- C4: calling `start_process` while the session status is not `stopped`
returns `False` (the `SessionAlreadyActive` rejection) without raising,
emits no event (in particular no `on_process_started`: nothing is
launched), and leaves the manager state — config, handle and status —
unchanged, for every config and every environment. -/
theorem start_process_rejected_while_active (pm : PMState)
    (config : ScrcpyConfig) (scan_busy : Bool) (launch : LaunchOutcome)
    (h : pm.status ≠ ProcessStatus.stopped) :
    ProcessManager.start_process pm config scan_busy launch =
      (pm, [], Except.ok false) := by
  unfold ProcessManager.start_process
  simp [h]

theorem start_process_rejected_while_active_witness :
    ProcessManager.start_process
        ⟨none, none, ProcessStatus.running, ⟨false, 0, 0, false⟩⟩
        { device_id := "ABC123" } false (.started .exitsOnTerminate) =
      (⟨none, none, ProcessStatus.running, ⟨false, 0, 0, false⟩⟩, [],
       Except.ok false) :=
  start_process_rejected_while_active _ _ _ _ (by decide)

/-- C2: after `stop_process` returns — whatever the held process's teardown
behaviour, including teardown failure — the reconnect attempt counter is 0,
no reconnect thread remains tracked, and the session status is `stopped`. -/
theorem stop_process_resets_reconnect_and_stops (pm : PMState) :
    (ProcessManager.stop_process pm).1.auto.attempt_count = 0 ∧
    (ProcessManager.stop_process pm).1.auto.reconnect_thread = false ∧
    (ProcessManager.stop_process pm).1.status = ProcessStatus.stopped := by
  unfold ProcessManager.stop_process AutoReconnectManager.stop_reconnecting
  cases pm.current_process <;> simp

/-- C10: `start_reconnecting` is a no-op when auto-reconnect is disabled or
a reconnect thread is already tracked (so at most one loop is ever active),
and otherwise resets the attempt counter to 0 as it launches the loop. -/
theorem start_reconnecting_guard_and_reset (st : AutoReconnectState) :
    (st.is_enabled = false → AutoReconnectManager.start_reconnecting st = st) ∧
    (st.reconnect_thread = true → AutoReconnectManager.start_reconnecting st = st) ∧
    (st.is_enabled = true → st.reconnect_thread = false →
      AutoReconnectManager.start_reconnecting st =
        { st with attempt_count := 0, reconnect_thread := true }) := by
  unfold AutoReconnectManager.start_reconnecting
  refine ⟨fun h => by simp [h], fun h => by simp [h], fun h1 h2 => by simp [h1, h2]⟩

theorem start_reconnecting_guard_and_reset_witness :
    AutoReconnectManager.start_reconnecting ⟨true, 5, 3, false⟩ =
      ⟨true, 0, 3, true⟩ :=
  (start_reconnecting_guard_and_reset ⟨true, 5, 3, false⟩).2.2 rfl rfl

/-- C3 counterexample: on a running handle whose process survives forced
termination, `stop` returns failure and the handle still tracks the
process — the claim that every return path clears the reference fails
here. -/
theorem stop_survives_kill_retains_process_reference :
    ScrcpyProcess.stop ⟨some ProcBehavior.survivesKill, ProcessStatus.running⟩ =
      (⟨some ProcBehavior.survivesKill, ProcessStatus.stopping⟩, false) ∧
    (ScrcpyProcess.stop
        ⟨some ProcBehavior.survivesKill, ProcessStatus.running⟩).1.process ≠
      none := by
  decide

/-- C3 (amended): `stop` is idempotent — on a handle that is neither
running nor reconnecting it returns success and changes nothing — and on
the active paths the process reference is cleared on return in every case
except the one where the process survives forced termination, where `stop`
returns failure and the handle still tracks the process. -/
theorem scrcpy_stop_idempotent_and_clears (st : ScrcpyProcessState) :
    (st.status ≠ ProcessStatus.running ∧ st.status ≠ ProcessStatus.reconnecting →
      ScrcpyProcess.stop st = (st, true)) ∧
    ((st.status = ProcessStatus.running ∨ st.status = ProcessStatus.reconnecting) →
      st.process ≠ some ProcBehavior.survivesKill →
      (ScrcpyProcess.stop st).1.process = none) ∧
    ((st.status = ProcessStatus.running ∨ st.status = ProcessStatus.reconnecting) →
      st.process = some ProcBehavior.survivesKill →
      ScrcpyProcess.stop st = ({ st with status := ProcessStatus.stopping }, false)) := by
  obtain ⟨process, status⟩ := st
  unfold ScrcpyProcess.stop ScrcpyProcess.cleanup_process
  refine ⟨?_, ?_, ?_⟩
  · rintro ⟨h1, h2⟩
    simp [h1, h2]
  · rintro (rfl | rfl) hp <;>
      (cases process with
       | none => simp
       | some b => cases b <;> simp_all)
  · rintro (rfl | rfl) hp <;> subst hp <;> simp

theorem scrcpy_stop_idempotent_and_clears_witness :
    ScrcpyProcess.stop ⟨none, ProcessStatus.stopped⟩ =
      (⟨none, ProcessStatus.stopped⟩, true) ∧
    (ScrcpyProcess.stop ⟨some ProcBehavior.exitsOnKill, ProcessStatus.running⟩).1.process =
      none :=
  ⟨(scrcpy_stop_idempotent_and_clears ⟨none, ProcessStatus.stopped⟩).1
      (by decide),
   (scrcpy_stop_idempotent_and_clears
      ⟨some ProcBehavior.exitsOnKill, ProcessStatus.running⟩).2.1
      (Or.inl rfl) (by decide)⟩

/-- C6: every bitrate value that is ≤ 0 or above the 1000 Mbps ceiling is
rejected by `BitrateValidator`, and `ConfigManager.set` under validation
returns `False` leaving the configuration exactly as it was — the prior
value is retained and the invalid one is never applied. -/
theorem bitrate_validation_rejects_out_of_range (q : Rat)
    (config : List (String × PyVal)) (h : q ≤ 0 ∨ 1000 < q) :
    (BitrateValidator.validate (PyVal.vrat q)).1 = false ∧
    ConfigManager.set config "bitrate" (PyVal.vrat q) true = (config, false) := by
  have hv : (BitrateValidator.validate (PyVal.vrat q)).1 = false := by
    show (BitrateValidator.checkRange q).1 = false
    unfold BitrateValidator.checkRange
    split_ifs with h1 h2
    · rfl
    · rfl
    · rcases h with h | h
      · exact absurd h h1
      · exact absurd h h2
  refine ⟨hv, ?_⟩
  unfold ConfigManager.set
  simp [validate_field, hv]

theorem bitrate_validation_rejects_out_of_range_witness :
    (BitrateValidator.validate (PyVal.vrat 0)).1 = false ∧
    ConfigManager.set [("bitrate", PyVal.vstr "20")] "bitrate"
        (PyVal.vrat 0) true =
      ([("bitrate", PyVal.vstr "20")], false) :=
  bitrate_validation_rejects_out_of_range 0 _ (Or.inl le_rfl)

/-- C8: on every failure of the external device-listing command —
raising (executable missing, timeout, any other exception) or a non-zero
exit code — `get_connected_devices` returns the empty list, and a
`refresh_devices` cycle built on it also returns the empty device set.
Both embedded functions are total: no exception reaches the caller. -/
theorem adb_failure_yields_empty_device_set (returncode : Int)
    (stdout : String) (st : DeviceManagerState)
    (nameOf : String → Option String) (h : returncode ≠ 0) :
    get_connected_devices AdbRunResult.raised = [] ∧
    get_connected_devices (AdbRunResult.completed returncode stdout) = [] ∧
    (refresh_devices st AdbRunResult.raised nameOf).2.2 = [] ∧
    (refresh_devices st (AdbRunResult.completed returncode stdout) nameOf).2.2 = [] := by
  have h1 : get_connected_devices (AdbRunResult.completed returncode stdout) = [] := by
    unfold get_connected_devices
    simp [h]
  refine ⟨rfl, h1, ?_, ?_⟩
  · unfold refresh_devices
    simp [get_connected_devices]
  · unfold refresh_devices
    simp [h1]

theorem adb_failure_yields_empty_device_set_witness :
    get_connected_devices (AdbRunResult.completed 1 "garbage") = [] ∧
    (refresh_devices ⟨[DeviceInfo.make "A"], []⟩ AdbRunResult.raised
        (fun _ => none)).2.2 = [] :=
  ⟨(adb_failure_yields_empty_device_set 1 "garbage" ⟨[DeviceInfo.make "A"], []⟩
      (fun _ => none) (by decide)).2.1,
   (adb_failure_yields_empty_device_set 1 "garbage" ⟨[DeviceInfo.make "A"], []⟩
      (fun _ => none) (by decide)).2.2.1⟩

/-- C9: `DeviceInfo` equality is by identifier alone (ignoring status and
name), and consequently a poll cycle whose old and new device lists carry
exactly the same identifiers dispatches no event at all — even when some
device's status token changed. -/
theorem device_identity_by_id_and_silent_status_change
    (old_devices new_devices : List DeviceInfo)
    (h1 : ∀ d ∈ new_devices, old_devices.any (fun o => DeviceInfo.pyEq o d) = true)
    (h2 : ∀ d ∈ old_devices, new_devices.any (fun o => DeviceInfo.pyEq o d) = true) :
    (∀ a b : DeviceInfo, DeviceInfo.pyEq a b = (a.device_id == b.device_id)) ∧
    notify_device_changes old_devices new_devices = [] := by
  refine ⟨fun a b => rfl, ?_⟩
  unfold notify_device_changes
  have hc : new_devices.filter
      (fun d => !(old_devices.any (fun o => DeviceInfo.pyEq o d))) = [] := by
    rw [List.filter_eq_nil_iff]
    intro d hd
    simp [h1 d hd]
  have hd : old_devices.filter
      (fun d => !(new_devices.any (fun o => DeviceInfo.pyEq o d))) = [] := by
    rw [List.filter_eq_nil_iff]
    intro d hd
    simp [h2 d hd]
  simp [hc, hd]

theorem device_identity_by_id_and_silent_status_change_witness :
    is_device_connected [DeviceInfo.make "A" "unauthorized"] "A" = false ∧
    is_device_connected [DeviceInfo.make "A" "device"] "A" = true ∧
    notify_device_changes [DeviceInfo.make "A" "unauthorized"]
        [DeviceInfo.make "A" "device"] = [] :=
  ⟨by decide, by decide,
   (device_identity_by_id_and_silent_status_change
      [DeviceInfo.make "A" "unauthorized"] [DeviceInfo.make "A" "device"]
      (by decide) (by decide)).2⟩

/-- A key absent from an association list stays absent after filtering. -/
theorem lookup_filter_none {β : Type} (k : String)
    (p : String × β → Bool) (l : List (String × β))
    (h : l.lookup k = none) : (l.filter p).lookup k = none := by
  induction l with
  | nil => simp
  | cons a l ih =>
    obtain ⟨k1, v1⟩ := a
    by_cases hk : k = k1
    · subst hk
      simp [List.lookup] at h
    · have hk' : (k == k1) = false := by
        simpa using hk
      rw [List.lookup] at h
      simp only [hk'] at h
      by_cases hp : p (k1, v1) <;>
        simp [List.filter_cons, hp, List.lookup, hk', ih h]

/-- C7: reloading a configuration from its serialized dictionary
reproduces it field-for-field; a key outside the dataclass fields is
filtered out and therefore ignored (never a failure); and every field
absent from the reload input takes its dataclass default value. -/
theorem appconfig_roundtrip_defaults_unknown_keys :
    (∀ c : AppConfig, AppConfig.from_dict (AppConfig.to_dict c) = c) ∧
    (∀ (k : String) (v : PyVal) (data : List (String × PyVal)),
      k ∉ AppConfig.known_fields →
      AppConfig.from_dict ((k, v) :: data) = AppConfig.from_dict data) ∧
    (∀ data : List (String × PyVal),
      (data.lookup "bitrate" = none →
        (AppConfig.from_dict data).bitrate = "20") ∧
      (data.lookup "framerate" = none →
        (AppConfig.from_dict data).framerate = 60) ∧
      (data.lookup "fullscreen_enabled" = none →
        (AppConfig.from_dict data).fullscreen_enabled = false) ∧
      (data.lookup "audio_source" = none →
        (AppConfig.from_dict data).audio_source = "Audio Playback") ∧
      (data.lookup "auto_reconnect_enabled" = none →
        (AppConfig.from_dict data).auto_reconnect_enabled = false) ∧
      (data.lookup "reconnect_max_attempts" = none →
        (AppConfig.from_dict data).reconnect_max_attempts = 0) ∧
      (data.lookup "reconnect_delay" = none →
        (AppConfig.from_dict data).reconnect_delay = 3) ∧
      (data.lookup "window_width" = none →
        (AppConfig.from_dict data).window_width = 400) ∧
      (data.lookup "window_height" = none →
        (AppConfig.from_dict data).window_height = 600) ∧
      (data.lookup "theme" = none →
        (AppConfig.from_dict data).theme = "light") ∧
      (data.lookup "last_selected_device" = none →
        (AppConfig.from_dict data).last_selected_device = "") ∧
      (data.lookup "device_refresh_interval" = none →
        (AppConfig.from_dict data).device_refresh_interval = 3) ∧
      (data.lookup "additional_scrcpy_args" = none →
        (AppConfig.from_dict data).additional_scrcpy_args = [])) := by
  refine ⟨fun c => rfl, ?_, ?_⟩
  · intro k v data hk
    have hdec : (decide (k ∈ AppConfig.known_fields)) = false :=
      decide_eq_false hk
    unfold AppConfig.from_dict
    rw [List.filter_cons]
    simp only [hdec]
    simp
  · intro data
    refine ⟨?_, ?_, ?_, ?_, ?_, ?_, ?_, ?_, ?_, ?_, ?_, ?_, ?_⟩ <;>
      (intro h;
       unfold AppConfig.from_dict;
       simp [lookup_filter_none _ _ _ h])

theorem appconfig_roundtrip_defaults_unknown_keys_witness :
    AppConfig.from_dict (AppConfig.to_dict AppConfig.defaults) =
      AppConfig.defaults ∧
    AppConfig.from_dict [("unknown_key", PyVal.vint 1)] =
      AppConfig.from_dict [] ∧
    (AppConfig.from_dict []).framerate = 60 :=
  ⟨appconfig_roundtrip_defaults_unknown_keys.1 AppConfig.defaults,
   appconfig_roundtrip_defaults_unknown_keys.2.1 "unknown_key"
     (PyVal.vint 1) [] (by decide),
   (appconfig_roundtrip_defaults_unknown_keys.2.2 []).2.1 rfl⟩

/-- One unfolding of `reconnect_loop` with the device never present. -/
theorem reconnect_loop_absent_step (fuel : Nat) (st : AutoReconnectState) :
    reconnect_loop (fun _ => false) (fun _ => false) (fuel + 1) st =
      if st.max_attempts > 0 ∧ st.attempt_count ≥ st.max_attempts then
        ({ st with reconnect_thread := false }, [], true)
      else
        let rest := reconnect_loop (fun _ => false) (fun _ => false) fuel
          { st with attempt_count := st.attempt_count + 1 }
        (rest.1,
         ProcessEvent.reconnect_attempt (st.attempt_count + 1) :: rest.2.1,
         rest.2.2) := by
  rfl

/-- With `max_attempts = 3`, the device never present and at least 4
iterations of fuel, the reconnect loop emits exactly the attempts 1, 2, 3,
then exits by itself, clearing its thread and leaving the counter at 3. -/
theorem reconnect_loop_absent_three (n : Nat) (enabled : Bool) :
    reconnect_loop (fun _ => false) (fun _ => false) (n + 4)
        ⟨enabled, 0, 3, true⟩ =
      (⟨enabled, 3, 3, false⟩,
       [ProcessEvent.reconnect_attempt 1, ProcessEvent.reconnect_attempt 2,
        ProcessEvent.reconnect_attempt 3], true) := by
  have h3 : reconnect_loop (fun _ => false) (fun _ => false) (n + 1)
      ⟨enabled, 3, 3, true⟩ = (⟨enabled, 3, 3, false⟩, [], true) := by
    rw [reconnect_loop_absent_step n]
    norm_num
  have h2 : reconnect_loop (fun _ => false) (fun _ => false) (n + 2)
      ⟨enabled, 2, 3, true⟩ =
      (⟨enabled, 3, 3, false⟩, [ProcessEvent.reconnect_attempt 3], true) := by
    rw [show n + 2 = (n + 1) + 1 from rfl, reconnect_loop_absent_step (n + 1)]
    norm_num [h3]
  have h1 : reconnect_loop (fun _ => false) (fun _ => false) (n + 3)
      ⟨enabled, 1, 3, true⟩ =
      (⟨enabled, 3, 3, false⟩,
       [ProcessEvent.reconnect_attempt 2, ProcessEvent.reconnect_attempt 3],
       true) := by
    rw [show n + 3 = (n + 2) + 1 from rfl, reconnect_loop_absent_step (n + 2)]
    norm_num [h2]
  rw [show n + 4 = (n + 3) + 1 from rfl, reconnect_loop_absent_step (n + 3)]
  norm_num [h1]

/-- C1 counterexample: a running session with auto-reconnect enabled,
`max_attempts = 3` and the device never reappearing.  The monitor hands off
to the reconnect loop, which emits exactly the attempts 1, 2, 3 and then
terminates — but the session status is left at `reconnecting`, which is not
`stopped`: the claimed transition to Stopped does not happen. -/
theorem reconnect_exhaustion_leaves_reconnecting_state :
    ProcessManager.disconnect_monitor_deviceAbsent
        ⟨some ⟨some (ProcBehavior.alreadyExited 1), ProcessStatus.stopped⟩,
         some { device_id := "ABC123" }, ProcessStatus.running,
         ⟨true, 0, 3, false⟩⟩ 10 =
      (⟨some ⟨some (ProcBehavior.alreadyExited 1), ProcessStatus.stopped⟩,
        some { device_id := "ABC123" }, ProcessStatus.reconnecting,
        ⟨true, 3, 3, false⟩⟩,
       [ProcessEvent.reconnect_attempt 1, ProcessEvent.reconnect_attempt 2,
        ProcessEvent.reconnect_attempt 3], true) ∧
    ProcessStatus.reconnecting ≠ ProcessStatus.stopped := by
  decide

/-- C1 (amended): for a session with auto-reconnect enabled, a config set,
no reconnect thread yet, `max_attempts = 3` and a device-presence check
that always reports the device absent, exactly 3 `on_reconnect_attempt`
events are emitted (with arguments 1, 2, 3) and the loop terminates,
clearing its thread — but the session status remains `reconnecting`; the
code never transitions it to `stopped` on attempt exhaustion (only an
explicit `stop_process` does). -/
theorem reconnect_exhaustion_spec (pm : PMState) (n : Nat)
    (henabled : pm.auto.is_enabled = true)
    (hthread : pm.auto.reconnect_thread = false)
    (hmax : pm.auto.max_attempts = 3)
    (hcount : pm.auto.attempt_count = 0)
    (hcfg : pm.current_config.isSome = true) :
    ProcessManager.disconnect_monitor_deviceAbsent pm (n + 4) =
      ({ pm with status := ProcessStatus.reconnecting,
                 auto := ⟨true, 3, 3, false⟩ },
       [ProcessEvent.reconnect_attempt 1, ProcessEvent.reconnect_attempt 2,
        ProcessEvent.reconnect_attempt 3], true) := by
  obtain ⟨cp, cc, stt, auto⟩ := pm
  obtain ⟨e, c, m, t⟩ := auto
  simp only at henabled hthread hmax hcount hcfg
  subst henabled hthread hmax hcount
  unfold ProcessManager.disconnect_monitor_deviceAbsent
    AutoReconnectManager.start_reconnecting
  simp only [hcfg]
  norm_num [reconnect_loop_absent_three n true]

theorem reconnect_exhaustion_spec_witness :
    ProcessManager.disconnect_monitor_deviceAbsent
        ⟨none, some { device_id := "XYZ" }, ProcessStatus.running,
         ⟨true, 0, 3, false⟩⟩ 6 =
      (⟨none, some { device_id := "XYZ" }, ProcessStatus.reconnecting,
        ⟨true, 3, 3, false⟩⟩,
       [ProcessEvent.reconnect_attempt 1, ProcessEvent.reconnect_attempt 2,
        ProcessEvent.reconnect_attempt 3], true) :=
  reconnect_exhaustion_spec
    ⟨none, some { device_id := "XYZ" }, ProcessStatus.running,
     ⟨true, 0, 3, false⟩⟩ 2 rfl rfl rfl rfl rfl

end ANJEL
